import Mathlib

/-!
# Verification of `hgssoauthentication.py`

A shallow embedding of the Mercurial SSO authentication extension
`hgssoauthentication.py`.  The extension defines two `urllib` 401-handlers:

* `SSPIAuthHandler` (Windows / pywin32 `sspi.ClientAuth`), and
* `KerberosAuthHandler` (Linux/macOS / `python-kerberos` GSS-API),

plus, in `KerberosAuthHandler.__init__`, a keytab-based Kerberos ticket
provisioner driven by the user's `~/.hgrc`.

External collaborators (the security library, `self.parent.open`, the config
parser, `subprocess.run`, the filesystem) are modelled as oracle fields of an
environment record; each handler is a pure function from its environment to an
`Outcome` together with the list of observable side effects (`Effect`) it
performed, in order.
-/

namespace HgSSO

/-- An HTTP response as the handlers observe it: a status code and the
`WWW-Authenticate` header (`none` when the header is absent). -/
structure HttpResponse where
  status : Nat
  wwwAuthenticate : Option String
  deriving DecidableEq, Repr

/-- Observable side effects of a handler invocation, in program order. -/
inductive Effect where
  /-- A security-library context creation (`ClientAuth(...)` on Windows,
  `kerberos.authGSSClientInit` on Unix), with the target SPN. -/
  | secInit (target : String)
  /-- A security-library handshake step (`ca.authorize` / `authGSSClientStep`
  driving the client leg), with the input token. -/
  | secStep (input : String)
  /-- The mutual-authentication verification step
  (`kerberos.authGSSClientStep(context, server_token)`). -/
  | secVerify (tok : String)
  /-- `req.add_header` (unredirected = `false`) or
  `req.add_unredirected_header` (unredirected = `true`). -/
  | addHeader (unredirected : Bool) (name : String) (value : String)
  /-- Resubmission of the request: `self.parent.open(req)`. -/
  | resubmit
  /-- A `print(...)` diagnostic. -/
  | logMsg (msg : String)
  /-- `os.environ[name] = value`. -/
  | setEnvVar (name : String) (value : String)
  /-- `subprocess.run` of `/usr/bin/klist` with the given argv. -/
  | runKlist (args : List String)
  /-- `subprocess.run` of `/usr/bin/kinit` with the given argv. -/
  | runKinit (args : List String)
  deriving DecidableEq, Repr

/-- The result a `http_error_401` invocation produces for its caller. -/
inductive Outcome where
  /-- `return None`: the handler declines, the host client falls back. -/
  | notHandled
  /-- The resubmitted response is returned as the final result. -/
  | success (resp : HttpResponse)
  /-- `sys.exit(code)`. -/
  | exitProcess (code : Nat)
  /-- An uncaught Python `IndexError` (list index out of range). -/
  | indexError
  /-- `raise Exception("Server authentication error: %s" % result)`. -/
  | authError (result : Int)
  deriving DecidableEq, Repr

/-- Split a character list at every character satisfying `p`, keeping empty
pieces — the semantics of Python `str.split(sep)` for a one-character
separator when `p` tests for that separator. -/
def splitOnP (p : Char → Bool) : List Char → List (List Char)
  | [] => [[]]
  | c :: cs =>
      let r := splitOnP p cs
      if p c then [] :: r else (c :: r.headD []) :: r.tail

/-- Python `s.split(",")` on a string, as character lists. -/
def pySplitComma (s : String) : List (List Char) :=
  splitOnP (fun c => c = ',') s.toList

/-- Python `str.strip()` (no argument): remove leading and trailing
whitespace. -/
def pyStrip (l : List Char) : List Char :=
  ((l.dropWhile Char.isWhitespace).reverse.dropWhile Char.isWhitespace).reverse

/-- `[s.strip() for s in headers.get("WWW-Authenticate", "").split(",")]`:
the advertised authentication schemes of a 401 response. -/
def supported_schemes (h : Option String) : List String :=
  (pySplitComma (h.getD "")).map (fun l => String.mk (pyStrip l))

/-- Python `str.split()` with no separator: split on whitespace runs,
discarding empty pieces. -/
def pySplitWS (s : String) : List String :=
  ((splitOnP Char.isWhitespace s.toList).filter (fun t => t ≠ [])).map String.mk

/-- Python truthiness of an optional string (`None` and `""` are falsy). -/
def pyTruthy : Option String → Bool
  | none => false
  | some s => s ≠ ""

/-! ## Base64 (`base64.encodebytes`) -/

/-- The standard base64 alphabet. -/
def b64Alphabet : List Char :=
  "ABCDEFGHIJKLMNOPQRSTUVWXYZabcdefghijklmnopqrstuvwxyz0123456789+/".toList

/-- The base64 digit for a 6-bit value. -/
def b64Char (n : Nat) : Char := b64Alphabet.getD n 'A'

/-- Plain base64 encoding of a byte list (no line breaks), three input bytes
to four output characters, `=`-padded. -/
def b64EncodeList : List Nat → List Char
  | [] => []
  | [a] => [b64Char (a / 4), b64Char (a % 4 * 16), '=', '=']
  | [a, b] => [b64Char (a / 4), b64Char (a % 4 * 16 + b / 16), b64Char (b % 16 * 4), '=']
  | a :: b :: c :: rest =>
      b64Char (a / 4) :: b64Char (a % 4 * 16 + b / 16) ::
      b64Char (b % 16 * 4 + c / 64) :: b64Char (c % 64) :: b64EncodeList rest

/-- Helper for `insertNL`: emit characters, placing a `'\n'` after every 76
characters of output and after the final (possibly short) line.  `k` counts
the characters still to emit on the current line, minus one. -/
def insertNLGo : List Char → Nat → List Char
  | [], k => if k = 75 then [] else ['\n']
  | c :: cs, 0 => c :: '\n' :: insertNLGo cs 75
  | c :: cs, Nat.succ k => c :: insertNLGo cs k

/-- `base64.encodebytes` line layout (documented behaviour): the base64
stream broken by a newline after every 76 characters, with a trailing
newline; empty input encodes to empty output. -/
def insertNL (l : List Char) : List Char :=
  match l with
  | [] => []
  | c :: cs => insertNLGo (c :: cs) 75

/-- Model of Python `base64.encodebytes(data)` as a character list. -/
def pyEncodebytes (data : List Nat) : List Char :=
  insertNL (b64EncodeList data)

/-- `encodebytes(data).decode('utf-8').replace("\012", "")`: the base64 text
with every newline removed, as computed by `SSPIAuthHandler`. -/
def sspiAuthValue (data : List Nat) : String :=
  String.mk ((pyEncodebytes data).filter (fun c => c ≠ '\n'))

/-! ## `SSPIAuthHandler.http_error_401` (Windows backend) -/

/-- Environment of one `SSPIAuthHandler.http_error_401` invocation.  All
security-library work (`ClientAuth(...)`, `ca.authorize(None)`, buffer
extraction) happens inside one `try:`, so it is collapsed into a single
oracle `authResult` (the output token bytes, or the text of the raised
exception); `self.parent.open(req)` is also inside the `try:`, oracle
`openResult`. -/
structure SSPIEnv where
  /-- The 401 response's `WWW-Authenticate` header. -/
  wwwAuth : Option String
  /-- The computed `targetspn` string (`'HTTP/%s@%s'` from reverse DNS and
  `USERDNSDOMAIN`). -/
  targetspn : String
  /-- Output token bytes of `ca.authorize(None)`, or an exception. -/
  authResult : Except String (List Nat)
  /-- Result of the resubmission `self.parent.open(req)`. -/
  openResult : Except String HttpResponse
  /-- `sys.version_info.major`. -/
  pyMajor : Nat

/-- The `except Exception` branch of the SSPI handler: on Python 3,
`sys.exit(1)` (workaround for Mercurial bug 6343), otherwise `return None`. -/
def sspiErrorOutcome (pyMajor : Nat) : Outcome :=
  if pyMajor = 3 then .exitProcess 1 else .notHandled

/-- Shallow embedding of `SSPIAuthHandler.http_error_401`. -/
def sspiHttpError401 (env : SSPIEnv) : Outcome × List Effect :=
  if "Negotiate" ∈ supported_schemes env.wwwAuth then
    match env.authResult with
    | .error e =>
        (sspiErrorOutcome env.pyMajor,
         [.secInit env.targetspn, .logMsg ("Kerberos error: " ++ e)])
    | .ok data =>
        let auth := sspiAuthValue data
        let effs : List Effect :=
          [.secInit env.targetspn,
           .addHeader false "Authorization" ("Negotiate" ++ " " ++ auth),
           .resubmit]
        match env.openResult with
        | .ok resp => (.success resp, effs)
        | .error e =>
            (sspiErrorOutcome env.pyMajor, effs ++ [.logMsg ("Kerberos error: " ++ e)])
  else
    (.notHandled, [.logMsg "Server does not support Kerberos authentication"])

/-! ## `KerberosAuthHandler.http_error_401` (Unix-like backend) -/

/-- Environment of one `KerberosAuthHandler.http_error_401` invocation. -/
structure KerbEnv where
  /-- The 401 response's `WWW-Authenticate` header. -/
  wwwAuth : Option String
  /-- `req.host` (Python 3) / `req.get_host()` (Python 2). -/
  host : String
  /-- Result of `kerberos.authGSSClientStep(context, supported_schemes[0])`:
  `ok` or the text of a raised `kerberos.GSSError`. -/
  stepResult : Except String Unit
  /-- `kerberos.authGSSClientResponse(context)`: the client's output token. -/
  responseTok : String
  /-- The response returned by the resubmission `self.parent.open(req)`. -/
  openResp : HttpResponse
  /-- Integer result of the mutual-auth verification step
  `kerberos.authGSSClientStep(context, server_token)`. -/
  verifyResult : Int
  /-- `sys.version_info.major`. -/
  pyMajor : Nat

/-- The whitespace fields of the first comma-segment of a (possibly absent)
`WWW-Authenticate` header: `h.get("WWW-Authenticate", "").split(",")[0].split()`. -/
def serverTokenFields (h : Option String) : List String :=
  pySplitWS (String.mk ((pySplitComma (h.getD "")).headD []))

/-- `resp.info().get("WWW-Authenticate", "").split(",")[0].split()[1]`, as an
`Option`: `none` exactly when Python raises `IndexError`. -/
def extractServerToken (h : Option String) : Option String :=
  (serverTokenFields h)[1]?

/-- Shallow embedding of `KerberosAuthHandler.http_error_401`. -/
def kerbHttpError401 (env : KerbEnv) : Outcome × List Effect :=
  let schemes := supported_schemes env.wwwAuth
  if "Negotiate" ∈ schemes then
    let target := "HTTP@" ++ String.mk ((splitOnP (fun c => c = ':') env.host.toList).headD [])
    match env.stepResult with
    | .error e =>
        (if env.pyMajor = 3 then .exitProcess 1 else .notHandled,
         [.secInit target, .secStep (schemes.headD ""),
          .logMsg ("Kerberos GSS Error: " ++ e)])
    | .ok () =>
        let effs0 : List Effect :=
          [.secInit target, .secStep (schemes.headD ""),
           .addHeader true "Authorization" ("Negotiate " ++ env.responseTok),
           .resubmit]
        match extractServerToken env.openResp.wwwAuthenticate with
        | none => (.indexError, effs0)
        | some tok =>
            if env.verifyResult < 1 then
              (.authError env.verifyResult, effs0 ++ [.secVerify tok])
            else
              (.success env.openResp, effs0 ++ [.secVerify tok])
  else
    (.notHandled, [.logMsg "Server does not support Kerberos authentication"])

/-! ## `KerberosAuthHandler.__init__`: the ticket provisioner -/

/-- The `[krb]` options of `~/.hgrc` after `has_option`/`get`
(`keytab` already passed through `expanduser`); `none` when absent. -/
structure HgrcConfig where
  keytab : Option String
  principal : Option String
  deriving DecidableEq, Repr

/-- Environment of one `KerberosAuthHandler.__init__` invocation. -/
structure TicketEnv where
  /-- `isfile(hgrcpath)` for `~/.hgrc`. -/
  hgrcExists : Bool
  /-- `configparser` reading `~/.hgrc`: the parsed options, or the text of a
  raised `configparser` error (e.g. `MissingSectionHeaderError`). -/
  parseResult : Except String HgrcConfig
  /-- `os.path.isfile` oracle for the keytab path. -/
  keytabIsFile : String → Bool
  /-- `os.geteuid()`. -/
  euid : Nat
  /-- `subprocess.run(["/usr/bin/klist", ...]).returncode`, or the text of a
  raised `OSError` (e.g. executable not found). -/
  klistResult : Except String Int
  /-- `subprocess.run(["/usr/bin/kinit", ...]).returncode`, or the text of a
  raised `OSError`. -/
  kinitResult : Except String Int

/-- Shallow embedding of `KerberosAuthHandler.__init__`.  The first component
is `.ok ()` when the constructor returns normally and `.error e` when a
Python exception `e` propagates to the caller (the code has no
`try`/`except`). -/
def kerbHandlerInit (env : TicketEnv) : Except String Unit × List Effect :=
  if env.hgrcExists then
    match env.parseResult with
    | .error e => (.error e, [])
    | .ok cfg =>
      if pyTruthy cfg.keytab && env.keytabIsFile (cfg.keytab.getD "")
          && pyTruthy cfg.principal then
        let krb5ccname := "/tmp/krb5cc_" ++ toString env.euid
        let e1 : List Effect := [.setEnvVar "KRB5CCNAME" krb5ccname]
        match env.klistResult with
        | .error e => (.error e, e1)
        | .ok rc =>
          let e2 := e1 ++ [.runKlist ["/usr/bin/klist", "-c", krb5ccname, "-s"]]
          if rc ≠ 0 then
            let e3 := e2 ++ [.logMsg "No valid kerberos ticket found, trying keytab"]
            match env.kinitResult with
            | .error e => (.error e, e3)
            | .ok rc2 =>
              let e4 := e3 ++
                [.runKinit ["/usr/bin/kinit", "-k", "-c", krb5ccname, "-t",
                            cfg.keytab.getD "", cfg.principal.getD ""]]
              if rc2 = 0 then
                (.ok (), e4 ++ [.logMsg "Succesfully obtained Kerberos ticket from keytab"])
              else
                (.ok (), e4)
          else
            (.ok (), e2)
      else
        (.ok (), [])
  else
    (.ok (), [])

/-! ## Effect classifiers -/

/-- Is an effect a security-library call? -/
def isSecCall : Effect → Bool
  | .secInit _ => true
  | .secStep _ => true
  | .secVerify _ => true
  | _ => false

/-- Is an effect a mutual-auth verification call? -/
def isVerify : Effect → Bool
  | .secVerify _ => true
  | _ => false

/-- Is an effect a request resubmission? -/
def isResubmit : Effect → Bool
  | .resubmit => true
  | _ => false

/-- Is an effect a header mutation? -/
def isAddHeader : Effect → Bool
  | .addHeader _ _ _ => true
  | _ => false

/-- Is an effect a subprocess invocation? -/
def isSubprocess : Effect → Bool
  | .runKlist _ => true
  | .runKinit _ => true
  | _ => false

/-- Is an effect a `kinit` (ticket-initialization) invocation? -/
def isKinit : Effect → Bool
  | .runKinit _ => true
  | _ => false

/-- Is an effect an environment-variable write? -/
def isSetEnv : Effect → Bool
  | .setEnvVar _ _ => true
  | _ => false

/-! ## Base64 lemmas -/

theorem b64Alphabet_length : b64Alphabet.length = 64 := by decide

theorem newline_not_mem_alphabet : '\n' ∉ b64Alphabet := by decide

theorem b64Char_mem (n : Nat) : b64Char n ∈ b64Alphabet := by
  unfold b64Char
  by_cases h : n < b64Alphabet.length
  · rw [List.getD_eq_getElem _ _ h]
    exact List.getElem_mem h
  · rw [List.getD_eq_default _ _ (Nat.le_of_not_lt h)]
    decide

theorem b64Char_ne_newline (n : Nat) : b64Char n ≠ '\n' := by
  intro h
  exact newline_not_mem_alphabet (h ▸ b64Char_mem n)

theorem newline_not_mem_b64 : ∀ l : List Nat, '\n' ∉ b64EncodeList l
  | [] => by simp [b64EncodeList]
  | [a] => by
      simp only [b64EncodeList, List.mem_cons, List.not_mem_nil]
      push_neg
      exact ⟨(b64Char_ne_newline _).symm, (b64Char_ne_newline _).symm,
        by decide, by decide, not_false⟩
  | [a, b] => by
      simp only [b64EncodeList, List.mem_cons, List.not_mem_nil]
      push_neg
      exact ⟨(b64Char_ne_newline _).symm, (b64Char_ne_newline _).symm,
        (b64Char_ne_newline _).symm, by decide, not_false⟩
  | a :: b :: c :: rest => by
      simp only [b64EncodeList, List.mem_cons]
      push_neg
      exact ⟨(b64Char_ne_newline _).symm, (b64Char_ne_newline _).symm,
        (b64Char_ne_newline _).symm, (b64Char_ne_newline _).symm,
        newline_not_mem_b64 rest⟩

theorem filter_insertNLGo : ∀ (l : List Char) (k : Nat), '\n' ∉ l →
    (insertNLGo l k).filter (fun c => c ≠ '\n') = l
  | [], k, _ => by
      unfold insertNLGo
      split <;> simp
  | c :: cs, 0, h => by
      have hc : c ≠ '\n' := fun hh => h (hh ▸ List.mem_cons_self _ _)
      have hcs : '\n' ∉ cs := fun hh => h (List.mem_cons_of_mem _ hh)
      simp only [insertNLGo, List.filter_cons]
      simp [hc]
      simpa using filter_insertNLGo cs 75 hcs
  | c :: cs, Nat.succ k, h => by
      have hc : c ≠ '\n' := fun hh => h (hh ▸ List.mem_cons_self _ _)
      have hcs : '\n' ∉ cs := fun hh => h (List.mem_cons_of_mem _ hh)
      simp only [insertNLGo, List.filter_cons]
      simp [hc]
      simpa using filter_insertNLGo cs k hcs

theorem filter_insertNL (l : List Char) (h : '\n' ∉ l) :
    (insertNL l).filter (fun c => c ≠ '\n') = l := by
  cases l with
  | nil => rfl
  | cons c cs => exact filter_insertNLGo (c :: cs) 75 h

/-- The `Authorization` value computed by the SSPI backend is the plain
base64 encoding of the token bytes, with no newlines left. -/
theorem sspiAuthValue_eq (data : List Nat) :
    sspiAuthValue data = String.mk (b64EncodeList data) := by
  unfold sspiAuthValue pyEncodebytes
  rw [filter_insertNL _ (newline_not_mem_b64 data)]

theorem negotiate_space (s : String) :
    "Negotiate" ++ " " ++ s = "Negotiate " ++ s := by
  have h : ("Negotiate" ++ " " : String) = "Negotiate " := rfl
  rw [h]

/-! ## Concrete environments used to instantiate the theorems -/

/-- A 200 response carrying a server mutual-auth leg. -/
def respSrv : HttpResponse :=
  { status := 200, wwwAuthenticate := some "Negotiate srvtok" }

/-- A 401 challenge advertising only `Basic`, seen by the Windows handler. -/
def sspiEnvBasic : SSPIEnv :=
  { wwwAuth := some "Basic"
    targetspn := "HTTP/server.example.com@EXAMPLE.COM"
    authResult := .ok [1, 2, 3]
    openResult := .ok respSrv
    pyMajor := 3 }

/-- A 401 challenge advertising only `Basic`, seen by the Unix handler. -/
def kerbEnvBasic : KerbEnv :=
  { wwwAuth := some "Basic"
    host := "server.example.com:443"
    stepResult := .ok ()
    responseTok := "clienttok"
    openResp := respSrv
    verifyResult := 1
    pyMajor := 3 }

/-- `~/.hgrc` present but with no `[krb]` options configured. -/
def ticketEnvUnset : TicketEnv :=
  { hgrcExists := true
    parseResult := .ok { keytab := none, principal := none }
    keytabIsFile := fun _ => false
    euid := 1000
    klistResult := .ok 0
    kinitResult := .ok 0 }

/-- Keytab and principal configured, keytab on disk, and `klist -s`
reports a still-valid ticket (exit code 0). -/
def ticketEnvValidTicket : TicketEnv :=
  { hgrcExists := true
    parseResult := .ok { keytab := some "/home/u/svc.keytab", principal := some "svc@EXAMPLE.COM" }
    keytabIsFile := fun _ => true
    euid := 1000
    klistResult := .ok 0
    kinitResult := .ok 0 }

/-- Keytab and principal configured, keytab on disk, `klist -s` reports no
valid ticket (exit 1) and `kinit` succeeds (exit 0). -/
def ticketEnvKinitOK : TicketEnv :=
  { hgrcExists := true
    parseResult := .ok { keytab := some "/home/u/svc.keytab", principal := some "svc@EXAMPLE.COM" }
    keytabIsFile := fun _ => true
    euid := 1000
    klistResult := .ok 1
    kinitResult := .ok 0 }

/-- `~/.hgrc` present but malformed: `configparser.read` raises
(e.g. `MissingSectionHeaderError`), which `__init__` does not catch. -/
def ticketEnvBadHgrc : TicketEnv :=
  { hgrcExists := true
    parseResult := .error "MissingSectionHeaderError: File contains no section headers"
    keytabIsFile := fun _ => false
    euid := 1000
    klistResult := .ok 0
    kinitResult := .ok 0 }

/-! ## Claim theorems -/

/-- C2: a 401 whose `WWW-Authenticate` header, split on commas with each
element stripped, lacks the exact token `Negotiate` makes both backends
return `None` ("not handled") having performed only the diagnostic print:
no security-library call, no header mutation, no resubmission. -/
theorem c2_no_negotiate_not_handled (se : SSPIEnv) (ke : KerbEnv)
    (hs : "Negotiate" ∉ supported_schemes se.wwwAuth)
    (hk : "Negotiate" ∉ supported_schemes ke.wwwAuth) :
    sspiHttpError401 se =
      (.notHandled, [.logMsg "Server does not support Kerberos authentication"]) ∧
    kerbHttpError401 ke =
      (.notHandled, [.logMsg "Server does not support Kerberos authentication"]) :=
  ⟨by simp [sspiHttpError401, hs], by simp [kerbHttpError401, hk]⟩

/-- C2 witness: a `WWW-Authenticate: Basic` challenge on both backends. -/
theorem c2_witness :
    sspiHttpError401 sspiEnvBasic =
      (.notHandled, [.logMsg "Server does not support Kerberos authentication"]) ∧
    kerbHttpError401 kerbEnvBasic =
      (.notHandled, [.logMsg "Server does not support Kerberos authentication"]) :=
  c2_no_negotiate_not_handled sspiEnvBasic kerbEnvBasic (by decide) (by decide)

/-- C4: when the keytab option is unset, the principal option is unset, or
the keytab file does not exist on disk, `KerberosAuthHandler.__init__` is a
no-op: it returns normally with an empty effect list — in particular
`KRB5CCNAME` is untouched and neither `klist` nor `kinit` runs. -/
theorem c4_unset_config_noop (te : TicketEnv) (cfg : HgrcConfig)
    (hp : te.parseResult = .ok cfg)
    (h : cfg.keytab = none ∨ cfg.principal = none ∨
      te.keytabIsFile (cfg.keytab.getD "") = false) :
    kerbHandlerInit te = (.ok (), []) := by
  obtain ⟨hg, pr, kf, eu, kl, ki⟩ := te
  dsimp only at hp h
  subst hp
  cases hg
  · simp [kerbHandlerInit]
  · have hguard : (pyTruthy cfg.keytab && kf (cfg.keytab.getD "")
        && pyTruthy cfg.principal) = false := by
      rcases h with h | h | h
      · simp [pyTruthy, h]
      · simp [pyTruthy, h]
      · simp [h]
    simp [kerbHandlerInit, hguard]

/-- C4 witness: `keytab` and `principal` both absent from `~/.hgrc`. -/
theorem c4_witness : kerbHandlerInit ticketEnvUnset = (.ok (), []) :=
  c4_unset_config_noop ticketEnvUnset { keytab := none, principal := none }
    rfl (Or.inl rfl)

/-- C5: any invocation of `KerberosAuthHandler.__init__` in which `klist -s`
exits 0 (a still-valid ticket) performs zero `kinit` calls — in particular
the second of two successive invocations when the ticket is still valid. -/
theorem c5_valid_ticket_no_kinit (te : TicketEnv)
    (h : te.klistResult = .ok 0) :
    (kerbHandlerInit te).snd.filter isKinit = [] := by
  obtain ⟨hg, pr, kf, eu, kl, ki⟩ := te
  dsimp only at h
  subst h
  cases hg
  · simp [kerbHandlerInit]
  · cases pr with
    | error e => simp [kerbHandlerInit]
    | ok cfg =>
      cases hguard : (pyTruthy cfg.keytab && kf (cfg.keytab.getD "")
          && pyTruthy cfg.principal)
      · simp [kerbHandlerInit, hguard]
      · simp [kerbHandlerInit, hguard, isKinit]

/-- C5 witness: configured keytab, valid ticket on the second call. -/
theorem c5_witness :
    (kerbHandlerInit ticketEnvValidTicket).snd.filter isKinit = [] :=
  c5_valid_ticket_no_kinit ticketEnvValidTicket rfl

/-- C6 counterexample: with keytab/principal configured, the keytab on disk,
`klist` reporting no valid ticket and `kinit` succeeding, the provisioner
invokes `kinit` carrying `(cache_path, keytab_path, principal)` but logs
`"Succesfully obtained Kerberos ticket from keytab"` (sic) — the message
`"Successfully obtained Kerberos ticket from keytab"` claimed by the spec is
never logged. -/
theorem c6_counterexample :
    Effect.runKinit ["/usr/bin/kinit", "-k", "-c", "/tmp/krb5cc_1000", "-t",
        "/home/u/svc.keytab", "svc@EXAMPLE.COM"] ∈ (kerbHandlerInit ticketEnvKinitOK).snd ∧
    Effect.logMsg "Succesfully obtained Kerberos ticket from keytab"
      ∈ (kerbHandlerInit ticketEnvKinitOK).snd ∧
    Effect.logMsg "Successfully obtained Kerberos ticket from keytab"
      ∉ (kerbHandlerInit ticketEnvKinitOK).snd := by
  decide

/-- C6 (amended): when keytab and principal are configured, the keytab file
exists, `klist` exits nonzero and `kinit` exits 0, the provisioner sets the
fixed cache, runs `klist`, runs `kinit` with exactly the argument vector
`["/usr/bin/kinit", "-k", "-c", cache_path, "-t", keytab_path, principal]`
(carrying exactly the values cache path, keytab path, principal), and logs
`"Succesfully obtained Kerberos ticket from keytab"` (the source's
spelling). -/
theorem c6_kinit_invocation (te : TicketEnv) (cfg : HgrcConfig)
    (k p : String) (rc : Int)
    (hg : te.hgrcExists = true)
    (hp : te.parseResult = .ok cfg)
    (hk : cfg.keytab = some k) (hk0 : k ≠ "")
    (hkf : te.keytabIsFile k = true)
    (hpr : cfg.principal = some p) (hp0 : p ≠ "")
    (hkl : te.klistResult = .ok rc) (hrc : rc ≠ 0)
    (hki : te.kinitResult = .ok 0) :
    kerbHandlerInit te =
      (.ok (),
       [.setEnvVar "KRB5CCNAME" ("/tmp/krb5cc_" ++ toString te.euid),
        .runKlist ["/usr/bin/klist", "-c", "/tmp/krb5cc_" ++ toString te.euid, "-s"],
        .logMsg "No valid kerberos ticket found, trying keytab",
        .runKinit ["/usr/bin/kinit", "-k", "-c", "/tmp/krb5cc_" ++ toString te.euid,
                   "-t", k, p],
        .logMsg "Succesfully obtained Kerberos ticket from keytab"]) := by
  obtain ⟨hg', pr, kf, eu, kl, ki⟩ := te
  dsimp only at hg hp hk hkf hpr hkl hki ⊢
  subst hg hp hkl hki
  simp [kerbHandlerInit, pyTruthy, hk, hpr, hk0, hp0, hkf, hrc]

/-- C6 witness: the concrete expired-ticket environment. -/
theorem c6_witness :
    kerbHandlerInit ticketEnvKinitOK =
      (.ok (),
       [.setEnvVar "KRB5CCNAME" ("/tmp/krb5cc_" ++ toString (1000 : Nat)),
        .runKlist ["/usr/bin/klist", "-c", "/tmp/krb5cc_" ++ toString (1000 : Nat), "-s"],
        .logMsg "No valid kerberos ticket found, trying keytab",
        .runKinit ["/usr/bin/kinit", "-k", "-c", "/tmp/krb5cc_" ++ toString (1000 : Nat),
                   "-t", "/home/u/svc.keytab", "svc@EXAMPLE.COM"],
        .logMsg "Succesfully obtained Kerberos ticket from keytab"]) := by
  exact c6_kinit_invocation ticketEnvKinitOK
    { keytab := some "/home/u/svc.keytab", principal := some "svc@EXAMPLE.COM" }
    "/home/u/svc.keytab" "svc@EXAMPLE.COM" 1
    rfl rfl rfl (by decide) rfl rfl (by decide) rfl (by decide) rfl

/-- C8 counterexample: a malformed `~/.hgrc` makes `configparser.read`
raise, and `KerberosAuthHandler.__init__` has no `try`/`except`, so the
exception propagates to the caller — the provisioner does not return
normally on every input state. -/
theorem c8_counterexample :
    (kerbHandlerInit ticketEnvBadHgrc).fst =
      .error "MissingSectionHeaderError: File contains no section headers" := rfl

/-- C8 (amended): whenever the external calls themselves do not raise — the
config file (if present) parses, and both `klist` and `kinit` launches
return exit codes — the provisioner returns normally for every option
combination, keytab-existence answer and exit-code pair; that nonzero exit
codes are swallowed. Uncaught exceptions from `configparser` or
`subprocess.run` do propagate (see the counterexample). -/
theorem c8_no_raise (te : TicketEnv) (cfg : HgrcConfig) (rc rc2 : Int)
    (hp : te.parseResult = .ok cfg)
    (hkl : te.klistResult = .ok rc)
    (hki : te.kinitResult = .ok rc2) :
    (kerbHandlerInit te).fst = .ok () := by
  obtain ⟨hg, pr, kf, eu, kl, ki⟩ := te
  dsimp only at hp hkl hki
  subst hp hkl hki
  cases hg
  · simp [kerbHandlerInit]
  · cases hguard : (pyTruthy cfg.keytab && kf (cfg.keytab.getD "")
        && pyTruthy cfg.principal)
    · simp [kerbHandlerInit, hguard]
    · by_cases h1 : rc = 0 <;> by_cases h2 : rc2 = 0 <;>
        simp [kerbHandlerInit, hguard, h1, h2]

/-- C8 witness: a fully-configured environment with failing `kinit`
(exit 7) still returns normally. -/
theorem c8_witness : (kerbHandlerInit
    { hgrcExists := true
      parseResult := .ok { keytab := some "/home/u/svc.keytab",
                           principal := some "svc@EXAMPLE.COM" }
      keytabIsFile := fun _ => true
      euid := 1000
      klistResult := .ok 1
      kinitResult := .ok 7 }).fst = .ok () :=
  c8_no_raise _
    { keytab := some "/home/u/svc.keytab", principal := some "svc@EXAMPLE.COM" }
    1 7 rfl rfl rfl

/-- A successful one-leg SSPI handshake environment: `Negotiate` offered,
token bytes produced, resubmission answered 200 — and no verification step
anywhere in the handler. -/
def sspiEnvOK : SSPIEnv :=
  { wwwAuth := some "Negotiate"
    targetspn := "HTTP/server.example.com@EXAMPLE.COM"
    authResult := .ok [72, 101, 108]
    openResult := .ok respSrv
    pyMajor := 3 }

/-- C1 counterexample: on the Windows (SSPI) backend a fully successful
handshake — resubmission sent, resubmitted response returned to the caller
as the final result — performs zero `verifyServerToken` calls, so the claim
"on either backend the interceptor calls verifyServerToken … before
returning that response" is false. -/
theorem c1_counterexample :
    (sspiHttpError401 sspiEnvOK).fst = .success respSrv ∧
    Effect.resubmit ∈ (sspiHttpError401 sspiEnvOK).snd ∧
    (sspiHttpError401 sspiEnvOK).snd.filter isVerify = [] := by
  decide

/-- C1 (amended): only the Unix-like (GSS-API) backend verifies the server
token: whenever `KerberosAuthHandler.http_error_401` returns the
resubmitted response as the final result, it has called the verification
step (`authGSSClientStep` with the token extracted from the resubmitted
response's `WWW-Authenticate` header) beforehand; the Windows (SSPI)
backend never performs a verification call on any path. -/
theorem c1_unix_verifies_sspi_does_not :
    (∀ (ke : KerbEnv) (r : HttpResponse),
      (kerbHttpError401 ke).fst = .success r →
      ∃ tok, extractServerToken ke.openResp.wwwAuthenticate = some tok ∧
        Effect.secVerify tok ∈ (kerbHttpError401 ke).snd) ∧
    (∀ (se : SSPIEnv) (t : String),
      Effect.secVerify t ∉ (sspiHttpError401 se).snd) := by
  constructor
  · intro ke r
    obtain ⟨wa, host, sr, rt, orp, vr, pm⟩ := ke
    by_cases hn : "Negotiate" ∈ supported_schemes wa
    · cases sr with
      | error e =>
          intro h
          simp only [kerbHttpError401, hn, if_true] at h
          split at h <;> simp at h
      | ok u =>
          cases u
          cases hx : extractServerToken orp.wwwAuthenticate with
          | none => intro h; simp [kerbHttpError401, hn, hx] at h
          | some tok =>
              by_cases hv : vr < 1
              · intro h; simp [kerbHttpError401, hn, hx, hv] at h
              · intro _
                exact ⟨tok, rfl, by simp [kerbHttpError401, hn, hx, hv]⟩
    · intro h; simp [kerbHttpError401, hn] at h
  · intro se t
    obtain ⟨wa, spn, ar, orr, pm⟩ := se
    by_cases hn : "Negotiate" ∈ supported_schemes wa
    · cases ar with
      | error e => simp [sspiHttpError401, hn]
      | ok data =>
          cases orr with
          | error e => simp [sspiHttpError401, hn]
          | ok resp => simp [sspiHttpError401, hn]
    · simp [sspiHttpError401, hn]

/-- C1 witness: a concrete successful Unix handshake whose trace contains
the verification of the extracted server token. -/
theorem c1_witness :
    Effect.secVerify "srvtok" ∈ (kerbHttpError401
      { wwwAuth := some "Negotiate"
        host := "server.example.com:443"
        stepResult := .ok ()
        responseTok := "clienttok"
        openResp := respSrv
        verifyResult := 1
        pyMajor := 3 }).snd := by
  obtain ⟨tok, htok, hmem⟩ := c1_unix_verifies_sspi_does_not.1
    { wwwAuth := some "Negotiate"
      host := "server.example.com:443"
      stepResult := .ok ()
      responseTok := "clienttok"
      openResp := respSrv
      verifyResult := 1
      pyMajor := 3 } respSrv (by decide)
  have ht : tok = "srvtok" := by
    have : extractServerToken respSrv.wwwAuthenticate = some "srvtok" := by decide
    exact Option.some.inj (htok.symm.trans this)
  exact ht ▸ hmem

/-- C3: on the Unix-like backend, when the handshake reaches verification
and the verification step returns a result less than 1, the handler raises
`Exception("Server authentication error: %s" % result)` carrying that
result and does not return the resubmitted response — regardless of the
resubmitted response's HTTP status (it may be 200: the status is never
inspected). -/
theorem c3_verify_failure_raises (ke : KerbEnv) (tok : String)
    (hn : "Negotiate" ∈ supported_schemes ke.wwwAuth)
    (hs : ke.stepResult = .ok ())
    (ht : extractServerToken ke.openResp.wwwAuthenticate = some tok)
    (hv : ke.verifyResult < 1) :
    (kerbHttpError401 ke).fst = .authError ke.verifyResult ∧
    ∀ r, (kerbHttpError401 ke).fst ≠ .success r := by
  obtain ⟨wa, host, sr, rt, orp, vr, pm⟩ := ke
  dsimp only at hn hs ht hv ⊢
  subst hs
  constructor
  · simp [kerbHttpError401, hn, ht, hv]
  · intro r
    simp [kerbHttpError401, hn, ht, hv]

/-- C3 witness: verification result 0 on a 200-status resubmitted
response. -/
theorem c3_witness :
    (kerbHttpError401
      { wwwAuth := some "Negotiate"
        host := "server.example.com:443"
        stepResult := .ok ()
        responseTok := "clienttok"
        openResp := respSrv
        verifyResult := 0
        pyMajor := 3 }).fst = .authError 0 ∧
    ∀ r, (kerbHttpError401
      { wwwAuth := some "Negotiate"
        host := "server.example.com:443"
        stepResult := .ok ()
        responseTok := "clienttok"
        openResp := respSrv
        verifyResult := 0
        pyMajor := 3 }).fst ≠ .success r :=
  c3_verify_failure_raises _ "srvtok" (by decide) rfl (by decide) (by decide)

/-- C7: a failed handshake step (a `kerberos.GSSError` on Unix, any
exception in the SSPI `try:` on Windows) is logged and yields `None`
("not handled") so the host falls back — except on a Python 3 host (the
documented Mercurial bug 6343 workaround), where the handler instead calls
`sys.exit(1)`. -/
theorem c7_step_failure_fallback_or_exit (ke : KerbEnv) (se : SSPIEnv)
    (e1 e2 : String)
    (hkn : "Negotiate" ∈ supported_schemes ke.wwwAuth)
    (hke : ke.stepResult = .error e1)
    (hsn : "Negotiate" ∈ supported_schemes se.wwwAuth)
    (hse : se.authResult = .error e2) :
    ((kerbHttpError401 ke).fst
        = (if ke.pyMajor = 3 then Outcome.exitProcess 1 else Outcome.notHandled) ∧
      Effect.logMsg ("Kerberos GSS Error: " ++ e1) ∈ (kerbHttpError401 ke).snd) ∧
    ((sspiHttpError401 se).fst
        = (if se.pyMajor = 3 then Outcome.exitProcess 1 else Outcome.notHandled) ∧
      Effect.logMsg ("Kerberos error: " ++ e2) ∈ (sspiHttpError401 se).snd) := by
  constructor
  · obtain ⟨wa, host, sr, rt, orp, vr, pm⟩ := ke
    dsimp only at hkn hke ⊢
    subst hke
    constructor
    · simp [kerbHttpError401, hkn]
    · simp [kerbHttpError401, hkn]
  · obtain ⟨wa, spn, ar, orr, pm⟩ := se
    dsimp only at hsn hse ⊢
    subst hse
    constructor
    · simp [sspiHttpError401, sspiErrorOutcome, hsn]
    · simp [sspiHttpError401, hsn]

/-- C7 witness: GSS / SSPI step failures on a Python 3 host exit the
process with code 1 after logging. -/
theorem c7_witness :
    ((kerbHttpError401
      { wwwAuth := some "Negotiate"
        host := "server.example.com:443"
        stepResult := .error "GSSError"
        responseTok := ""
        openResp := respSrv
        verifyResult := 1
        pyMajor := 3 }).fst = (if (3 : Nat) = 3 then Outcome.exitProcess 1 else .notHandled) ∧
      Effect.logMsg ("Kerberos GSS Error: " ++ "GSSError") ∈ (kerbHttpError401
      { wwwAuth := some "Negotiate"
        host := "server.example.com:443"
        stepResult := .error "GSSError"
        responseTok := ""
        openResp := respSrv
        verifyResult := 1
        pyMajor := 3 }).snd) ∧
    ((sspiHttpError401
      { wwwAuth := some "Negotiate"
        targetspn := "HTTP/server.example.com@EXAMPLE.COM"
        authResult := .error "sspi failure"
        openResult := .ok respSrv
        pyMajor := 3 }).fst = (if (3 : Nat) = 3 then Outcome.exitProcess 1 else .notHandled) ∧
      Effect.logMsg ("Kerberos error: " ++ "sspi failure") ∈ (sspiHttpError401
      { wwwAuth := some "Negotiate"
        targetspn := "HTTP/server.example.com@EXAMPLE.COM"
        authResult := .error "sspi failure"
        openResult := .ok respSrv
        pyMajor := 3 }).snd) :=
  c7_step_failure_fallback_or_exit _ _ "GSSError" "sspi failure"
    (by decide) rfl (by decide) rfl

/-- C9: a successful one-leg SSPI handshake returns the resubmitted
response, with exactly the effect trace context-init, one `Authorization`
header write whose value is `"Negotiate "` followed by the base64 encoding
of the provider's output token bytes, and one resubmission; the base64
text contains no newline (the code strips the newlines
`base64.encodebytes` inserts). -/
theorem c9_sspi_one_leg (se : SSPIEnv) (data : List Nat) (resp : HttpResponse)
    (hn : "Negotiate" ∈ supported_schemes se.wwwAuth)
    (ha : se.authResult = .ok data)
    (ho : se.openResult = .ok resp) :
    sspiHttpError401 se =
      (.success resp,
       [.secInit se.targetspn,
        .addHeader false "Authorization" ("Negotiate " ++ String.mk (b64EncodeList data)),
        .resubmit]) ∧
    ((sspiHttpError401 se).snd.filter isResubmit).length = 1 ∧
    '\n' ∉ b64EncodeList data := by
  obtain ⟨wa, spn, ar, orr, pm⟩ := se
  dsimp only at hn ha ho ⊢
  subst ha ho
  have htrace : sspiHttpError401 ⟨wa, spn, .ok data, .ok resp, pm⟩ =
      (.success resp,
       [.secInit spn,
        .addHeader false "Authorization" ("Negotiate " ++ String.mk (b64EncodeList data)),
        .resubmit]) := by
    simp [sspiHttpError401, hn, sspiAuthValue_eq, negotiate_space]
  refine ⟨htrace, ?_, newline_not_mem_b64 data⟩
  rw [htrace]
  simp [isResubmit]

/-- C9 witness: token bytes `[72, 101, 108]` encode to `SGVs`. -/
theorem c9_witness :
    sspiHttpError401 sspiEnvOK =
      (.success respSrv,
       [.secInit "HTTP/server.example.com@EXAMPLE.COM",
        .addHeader false "Authorization" ("Negotiate " ++ String.mk (b64EncodeList [72, 101, 108])),
        .resubmit]) ∧
    ((sspiHttpError401 sspiEnvOK).snd.filter isResubmit).length = 1 ∧
    '\n' ∉ b64EncodeList [72, 101, 108] :=
  c9_sspi_one_leg sspiEnvOK [72, 101, 108] respSrv (by decide) rfl rfl

/-- C10: on the Unix-like backend, when the handshake reaches the
resubmission and the resubmitted response's `WWW-Authenticate` header is
absent, empty, or its first comma-segment has fewer than two
whitespace-separated fields, the server-token extraction
`…split(",")[0].split()[1]` raises an uncaught `IndexError` — not a
`ServerAuthMismatch` (`Outcome.authError`) and not a `NegotiationError`
fallback. -/
theorem c10_index_error (ke : KerbEnv)
    (hn : "Negotiate" ∈ supported_schemes ke.wwwAuth)
    (hs : ke.stepResult = .ok ())
    (h : ke.openResp.wwwAuthenticate = none ∨ ke.openResp.wwwAuthenticate = some "" ∨
      (serverTokenFields ke.openResp.wwwAuthenticate).length < 2) :
    (kerbHttpError401 ke).fst = .indexError := by
  have hx : extractServerToken ke.openResp.wwwAuthenticate = none := by
    rcases h with h | h | h
    · rw [h]; rfl
    · rw [h]; rfl
    · exact List.getElem?_eq_none (by omega)
  obtain ⟨wa, host, sr, rt, orp, vr, pm⟩ := ke
  dsimp only at hn hs hx ⊢
  subst hs
  simp [kerbHttpError401, hn, hx]

/-- C10 witness: a resubmitted response whose `WWW-Authenticate` is bare
`"Negotiate"` (a single field in the first comma-segment). -/
theorem c10_witness :
    (kerbHttpError401
      { wwwAuth := some "Negotiate"
        host := "server.example.com:443"
        stepResult := .ok ()
        responseTok := "clienttok"
        openResp := { status := 200, wwwAuthenticate := some "Negotiate" }
        verifyResult := 1
        pyMajor := 3 }).fst = .indexError :=
  c10_index_error _ (by decide) rfl (Or.inr (Or.inr (by decide)))

end HgSSO
